import Mathlib

/-!
Verification development for the Gmail MCP chatbot repository
(`src/gmail-chatbot`).  The definitions below are shallow embeddings of
the Python source files `src/mcp/gmail_server.py` and
`src/agents/gmail_client.py`; the theorems at the end of the file settle
the specification claims about them.

Modelling conventions:
* Python dicts are association lists of string keys in insertion order
  (the key order of Python dict literals, which `json.dumps` preserves).
* A raised Python exception is an `Except.error` carrying the message;
  an ordinary return value is an `Except.ok`.
* Calls to external collaborators (Gmail REST API, MCP transport, OAuth
  file/interactive flows, `json.loads`) are abstract function parameters
  whose `Except`/outcome value describes what the collaborator did.
-/

set_option maxRecDepth 8192

/-! Section: JSON-shaped values -/

inductive JVal where
  | null
  | bool (b : Bool)
  | int (n : Int)
  | str (s : String)
  | arr (elems : List JVal)
  | obj (fields : List (String × JVal))

/-- Python `d.get(k, default)` on a dict modelled as an association list. -/
def dictGet (d : List (String × JVal)) (k : String) (default : JVal) : JVal :=
  match d.lookup k with
  | some v => v
  | none => default

/-- Python `k in d` on a dict modelled as an association list. -/
def dictHasKey (d : List (String × JVal)) (k : String) : Bool :=
  (d.lookup k).isSome

/-- The keys of a dict, in insertion order. -/
def dictKeys (d : List (String × JVal)) : List String :=
  d.map Prod.fst

/-- Field lookup inside a `JVal.obj`. -/
def jObjGet (v : JVal) (k : String) : Option JVal :=
  match v with
  | JVal.obj fields => fields.lookup k
  | _ => none

/-- Python slicing `l[:n]`: a nonnegative `n` keeps the first `n`
elements; a negative `n` drops the last `-n` elements. -/
def pyTake (n : Int) (l : List α) : List α :=
  if 0 ≤ n then l.take n.toNat
  else l.take (l.length - (-n).toNat)

/-! Section: decoding, `base64.urlsafe_b64decode(data).decode(utf-8)`

`gmail_server.py` decodes MIME part data with URL-safe base64 followed by
UTF-8 decoding; either step raises on invalid input, modelled with
`Except`. -/

/-- Value of one base64 alphabet character.  `urlsafe_b64decode` translates
`-` to `+` and `_` to `/` before decoding, so both alphabets are accepted. -/
def b64Index (c : Char) : Option Nat :=
  let n := c.toNat
  if 65 ≤ n ∧ n ≤ 90 then some (n - 65)
  else if 97 ≤ n ∧ n ≤ 122 then some (n - 97 + 26)
  else if 48 ≤ n ∧ n ≤ 57 then some (n - 48 + 52)
  else if c = '-' ∨ c = '+' then some 62
  else if c = '_' ∨ c = '/' then some 63
  else none

/-- Reassemble 6-bit base64 values into bytes.  A trailing group of two
values yields one byte and of three values two bytes (validity of the
grouping is checked by the caller). -/
def b64Bytes : List Nat → List Nat
  | a :: b :: c :: d :: rest =>
      (a * 4 + b / 16) :: ((b % 16) * 16 + c / 4) :: ((c % 4) * 64 + d) :: b64Bytes rest
  | [a, b] => [a * 4 + b / 16]
  | [a, b, c] => [a * 4 + b / 16, (b % 16) * 16 + c / 4]
  | _ => []

/-- Model of `base64.urlsafe_b64decode` on well-formed input: alphabet characters
followed by `=` padding to a multiple of four, with no dangling single
character; `none` models the `binascii.Error` raised otherwise. -/
def urlsafe_b64decode (s : String) : Option (List Nat) :=
  let body := s.data.takeWhile (fun c => c ≠ '=')
  let pad := s.data.dropWhile (fun c => c ≠ '=')
  if pad.all (fun c => c = '=') ∧ (body.length + pad.length) % 4 = 0 ∧
      body.length % 4 ≠ 1 then
    (body.mapM b64Index).map b64Bytes
  else none

/-- Strict UTF-8 decoding of a byte list, rejecting overlong encodings,
surrogates and out-of-range code points as Python `bytes.decode(utf-8)`
does. -/
def utf8Decode : List Nat → Option (List Char)
  | [] => some []
  | b :: rest =>
    if b < 0x80 then
      (utf8Decode rest).map (fun cs => Char.ofNat b :: cs)
    else if b < 0xC2 then none
    else if b < 0xE0 then
      match rest with
      | b1 :: rest2 =>
        if 0x80 ≤ b1 ∧ b1 < 0xC0 then
          (utf8Decode rest2).map
            (fun cs => Char.ofNat ((b - 0xC0) * 64 + (b1 - 0x80)) :: cs)
        else none
      | [] => none
    else if b < 0xF0 then
      match rest with
      | b1 :: b2 :: rest3 =>
        if (0x80 ≤ b1 ∧ b1 < 0xC0) ∧ (0x80 ≤ b2 ∧ b2 < 0xC0) then
          let cp := (b - 0xE0) * 4096 + (b1 - 0x80) * 64 + (b2 - 0x80)
          if cp < 0x800 ∨ (0xD800 ≤ cp ∧ cp < 0xE000) then none
          else (utf8Decode rest3).map (fun cs => Char.ofNat cp :: cs)
        else none
      | _ => none
    else if b < 0xF5 then
      match rest with
      | b1 :: b2 :: b3 :: rest4 =>
        if (0x80 ≤ b1 ∧ b1 < 0xC0) ∧ (0x80 ≤ b2 ∧ b2 < 0xC0) ∧
            (0x80 ≤ b3 ∧ b3 < 0xC0) then
          let cp := (b - 0xF0) * 262144 + (b1 - 0x80) * 4096 +
            (b2 - 0x80) * 64 + (b3 - 0x80)
          if cp < 0x10000 ∨ 0x10FFFF < cp then none
          else (utf8Decode rest4).map (fun cs => Char.ofNat cp :: cs)
        else none
      | _ => none
    else none

/-- Composition `base64.urlsafe_b64decode(d).decode(utf-8)`; an `Except.error` models
the exception either step raises on invalid input. -/
def pyDecode (s : String) : Except String String :=
  match urlsafe_b64decode s with
  | none => Except.error "binascii.Error: invalid base64 input"
  | some bytes =>
    match utf8Decode bytes with
    | none => Except.error "UnicodeDecodeError: invalid utf-8"
    | some cs => Except.ok (String.mk cs)

/-- Python whitespace stripped by `str.strip()` (ASCII subset, which covers
every character reachable from the payloads considered here). -/
def pyIsSpace (c : Char) : Bool :=
  c = ' ' || c = '\t' || c = '\n' || c = '\r' || c = '\x0b' || c = '\x0c'

/-- Python `str.strip()`: remove leading and trailing whitespace. -/
def pyStrip (s : String) : String :=
  String.mk (((s.data.dropWhile pyIsSpace).reverse.dropWhile pyIsSpace).reverse)

namespace GmailMCPServer

/-! Section: MIME payload tree.

A Gmail message payload dict: `mimeType`, a `body` whose optional `data`
field holds base64 text, and an optional `parts` key holding child
payloads (`parts` present with an empty list is distinct from `parts`
absent, matching the Python membership test `parts in payload`). -/

inductive Payload where
  | mk (mimeType : String) (data : Option String) (parts : Option (List Payload))

def Payload.mimeType : Payload → String
  | .mk mt _ _ => mt

def Payload.data : Payload → Option String
  | .mk _ d _ => d

def Payload.parts : Payload → Option (List Payload)
  | .mk _ _ ps => ps

mutual

/-- Model of `GmailMCPServer._extract_body` (gmail_server.py lines 284-307): if the
payload has a `parts` key, scan the children with the loop modelled by
`extractParts` below; otherwise decode the payload body itself when its
MIME type is `text/plain` and `data` is present.  The result is stripped
on return; a decode exception propagates. -/
def extract_body : Payload → Except String String
  | .mk mt dat parts =>
    let bodyE : Except String String :=
      match parts with
      | some ps => extractParts ps
      | none =>
        if mt = "text/plain" then
          match dat with
          | some d => pyDecode d
          | none => Except.ok ""
        else Except.ok ""
    bodyE.map pyStrip

/-- The `for part in payload[parts]` loop of `_extract_body`: a
`text/plain` child with `data` is decoded and breaks the loop (even when
the decoded text is empty); a `text/plain` child without `data` falls
through both branches of the `if`/`elif` and is skipped; any other child
with a `parts` key is recursed into and breaks the loop only when the
recursion yields a non-empty string. -/
def extractParts : List Payload → Except String String
  | [] => Except.ok ""
  | p :: rest =>
    if p.mimeType = "text/plain" then
      match p.data with
      | some d => pyDecode d
      | none => extractParts rest
    else if (p.parts).isSome then
      match extract_body p with
      | Except.error e => Except.error e
      | Except.ok b => if b ≠ "" then Except.ok b else extractParts rest
    else extractParts rest

end

mutual

/-- The extraction algorithm exactly as the specification words it: this
definition follows the spec sentence, to be compared with `extract_body`,
which follows the source.  The no-parts case is the spec wording "decode the
body of the payload itself only if its MIME type is text/plain and data
is present". -/
def extract_body_spec : Payload → Except String String
  | .mk mt dat parts =>
    let bodyE : Except String String :=
      match parts with
      | some ps => extractParts_spec ps
      | none =>
        if mt = "text/plain" then
          match dat with
          | some d => pyDecode d
          | none => Except.ok ""
        else Except.ok ""
    bodyE.map pyStrip

/-- The scan as the spec words it, clause by clause: for each child, if
the MIME type of the child is text/plain and it carries inline data,
decode and stop; if
the child itself has sub-parts, recurse into it and stop if a non-empty
result is produced; otherwise continue to the next child." -/
def extractParts_spec : List Payload → Except String String
  | [] => Except.ok ""
  | p :: rest =>
    if p.mimeType = "text/plain" ∧ (p.data).isSome then
      pyDecode ((p.data).getD "")
    else if (p.parts).isSome then
      match extract_body_spec p with
      | Except.error e => Except.error e
      | Except.ok b => if b ≠ "" then Except.ok b else extractParts_spec rest
    else extractParts_spec rest

end

mutual

/-- The amended wording of the extraction algorithm of the spec: as
`extract_body_spec`, but a `text/plain` child without inline data is
skipped outright — the recursion into sub-parts applies only to children
whose MIME type is not `text/plain`. -/
def extract_body_amended : Payload → Except String String
  | .mk mt dat parts =>
    let bodyE : Except String String :=
      match parts with
      | some ps => extractParts_amended ps
      | none =>
        if mt = "text/plain" then
          match dat with
          | some d => pyDecode d
          | none => Except.ok ""
        else Except.ok ""
    bodyE.map pyStrip

/-- Amended scan: a `text/plain` child is decoded (stopping the scan)
when it carries inline data and skipped otherwise; a non-`text/plain`
child with sub-parts is recursed into, stopping on a non-empty result;
any other child is skipped. -/
def extractParts_amended : List Payload → Except String String
  | [] => Except.ok ""
  | p :: rest =>
    if p.mimeType = "text/plain" ∧ (p.data).isSome then
      pyDecode ((p.data).getD "")
    else if p.mimeType ≠ "text/plain" ∧ (p.parts).isSome then
      match extract_body_amended p with
      | Except.error e => Except.error e
      | Except.ok b => if b ≠ "" then Except.ok b else extractParts_amended rest
    else extractParts_amended rest

end

/-! Section: Mail Data Service handlers -/

/-- One entry of `message[payload][headers]`. -/
structure Header where
  name : String
  value : String

/-- The parts of a `users().messages().get` response that
`_get_email_details` reads.  `snippet` and `labelIds` are optional keys
(read with `.get` and a default); `threadId` and the payload are accessed
directly. -/
structure RawMessage where
  threadId : String
  headers : List Header
  payload : Payload
  snippet : Option String
  labelIds : Option (List String)

/-- The header-dict build of `_get_email_details` followed by
`headers.get(key, default)`: the value of the last header whose lowercased
name equals `key`, or the empty string. -/
def headerValue (hs : List Header) (key : String) : String :=
  hs.foldl (fun acc h => if h.name.toLower = key then h.value else acc) ""

/-- The success dict returned by `_get_email_details`, with the keys in
source order. -/
def emailFields (message_id : String) (msg : RawMessage) (body : String) :
    List (String × JVal) :=
  [("id", JVal.str message_id),
   ("thread_id", JVal.str msg.threadId),
   ("from", JVal.str (headerValue msg.headers "from")),
   ("to", JVal.str (headerValue msg.headers "to")),
   ("subject", JVal.str (headerValue msg.headers "subject")),
   ("date", JVal.str (headerValue msg.headers "date")),
   ("body", JVal.str body),
   ("snippet", JVal.str (msg.snippet.getD "")),
   ("labels", JVal.arr ((msg.labelIds.getD []).map JVal.str))]

/-- Model of `GmailMCPServer._get_email_details` (gmail_server.py lines 252-282).
`api_get` abstracts `users().messages().get(userId=me, id=...)`; any
exception inside the try block (remote failure or a body-decoding error)
becomes the error dict. -/
def _get_email_details (api_get : String → Except String RawMessage)
    (message_id : String) : List (String × JVal) :=
  match api_get message_id with
  | Except.error e =>
      [("error", JVal.str ("Erro ao buscar email " ++ message_id ++ ": " ++ e))]
  | Except.ok msg =>
    match extract_body msg.payload with
    | Except.error e =>
        [("error", JVal.str ("Erro ao buscar email " ++ message_id ++ ": " ++ e))]
    | Except.ok body => emailFields message_id msg body

/-- The shared `for message in messages: ...` loop of the three bulk
tools: fetch details for each id and append them to `emails` unless the
returned dict is empty or carries an `error` key. -/
def emailLoop (api_get : String → Except String RawMessage)
    (emails : List JVal) : List String → List JVal
  | [] => emails
  | m :: ms =>
    let email_data := _get_email_details api_get m
    if !email_data.isEmpty && !(dictHasKey email_data "error") then
      emailLoop api_get (emails ++ [JVal.obj email_data]) ms
    else
      emailLoop api_get emails ms

/-- Model of `GmailMCPServer._get_recent_emails` (gmail_server.py lines 176-199).
`api_list` abstracts `users().messages().list(userId=me,
maxResults=count)` and returns the listed message ids; the loop runs over
`messages[:count]`. -/
def _get_recent_emails (api_list : Int → Except String (List String))
    (api_get : String → Except String RawMessage) (count : Int) :
    List (String × JVal) :=
  match api_list count with
  | Except.error e =>
      [("error", JVal.str ("Erro ao buscar emails recentes: " ++ e))]
  | Except.ok messages =>
    let emails := emailLoop api_get [] (pyTake count messages)
    [("tool", JVal.str "get_recent_emails"),
     ("success", JVal.bool true),
     ("count", JVal.int emails.length),
     ("emails", JVal.arr emails)]

/-- Model of `GmailMCPServer._search_emails` (gmail_server.py lines 226-250).
`api_list_q` abstracts `users().messages().list(userId=me, q=query,
maxResults=count)`; the query string is passed through unchanged and the
success payload carries it in a `query` field. -/
def _search_emails (api_list_q : String → Int → Except String (List String))
    (api_get : String → Except String RawMessage)
    (query : String) (count : Int) : List (String × JVal) :=
  match api_list_q query count with
  | Except.error e =>
      [("error", JVal.str ("Erro na busca \x27" ++ query ++ "\x27: " ++ e))]
  | Except.ok messages =>
    let emails := emailLoop api_get [] messages
    [("tool", JVal.str "search_emails"),
     ("query", JVal.str query),
     ("success", JVal.bool true),
     ("count", JVal.int emails.length),
     ("emails", JVal.arr emails)]

/-- The Email dict produced for message id `m` when its detail fetch
succeeds (`none` when the remote fetch or the body decoding fails, in
which case the bulk loops drop the message). -/
def fetchedEmail (api_get : String → Except String RawMessage) (m : String) :
    Option JVal :=
  match api_get m with
  | Except.error _ => none
  | Except.ok msg =>
    match extract_body msg.payload with
    | Except.error _ => none
    | Except.ok body => some (JVal.obj (emailFields m msg body))

/-! Section: tool registry and dispatcher -/

/-- An advertised MCP tool descriptor. -/
structure Tool where
  name : String
  description : String
  inputSchema : JVal

/-- Model of `handle_list_tools` (gmail_server.py lines 33-98): the four advertised
tool descriptors, verbatim and in registration order. -/
def handle_list_tools : List Tool :=
  [{ name := "get_recent_emails",
     description := "Busca emails recentes da caixa de entrada",
     inputSchema := JVal.obj
       [("type", JVal.str "object"),
        ("properties", JVal.obj
          [("count", JVal.obj
            [("type", JVal.str "integer"),
             ("description", JVal.str "Número de emails para buscar (padrão: 5)"),
             ("default", JVal.int 5)])])] },
   { name := "get_unread_emails",
     description := "Busca emails não lidos",
     inputSchema := JVal.obj
       [("type", JVal.str "object"),
        ("properties", JVal.obj
          [("count", JVal.obj
            [("type", JVal.str "integer"),
             ("description", JVal.str "Número máximo de emails não lidos (padrão: 10)"),
             ("default", JVal.int 10)])])] },
   { name := "search_emails",
     description := "Busca emails usando query do Gmail",
     inputSchema := JVal.obj
       [("type", JVal.str "object"),
        ("properties", JVal.obj
          [("query", JVal.obj
            [("type", JVal.str "string"),
             ("description", JVal.str
               "Query de busca do Gmail (ex: \x27from:pessoa@email.com\x27, \x27subject:reunião\x27)")]),
           ("count", JVal.obj
            [("type", JVal.str "integer"),
             ("description", JVal.str "Número máximo de emails para retornar (padrão: 10)"),
             ("default", JVal.int 10)])]),
        ("required", JVal.arr [JVal.str "query"])] },
   { name := "get_email_details",
     description := "Busca detalhes completos de um email específico",
     inputSchema := JVal.obj
       [("type", JVal.str "object"),
        ("properties", JVal.obj
          [("message_id", JVal.obj
            [("type", JVal.str "string"),
             ("description", JVal.str "ID da mensagem no Gmail")])]),
        ("required", JVal.arr [JVal.str "message_id"])] }]

/-- Model of `GmailMCPServer._initialize_gmail` (gmail_server.py lines 140-174):
the body of its try block (OAuth file handling, refresh, interactive
flow, service build) is pure IO against external collaborators and is
abstracted as `initBody`; any exception it raises is re-raised wrapped in
the Portuguese prefix. -/
def _initialize_gmail (initBody : Except String Unit) : Except String Unit :=
  match initBody with
  | Except.ok u => Except.ok u
  | Except.error e => Except.error ("Erro ao inicializar Gmail: " ++ e)

/-- The error dict built by the except clause of `handle_call_tool`. -/
def errExec (name e : String) : JVal :=
  JVal.obj [("error", JVal.str ("Erro ao executar " ++ name ++ ": " ++ e))]

/-- The unknown-tool error dict of `handle_call_tool`. -/
def unknownTool (name : String) : JVal :=
  JVal.obj [("error", JVal.str ("Ferramenta desconhecida: " ++ name))]

/-- What the dispatcher does with a handler outcome inside its try block:
a returned dict is the result; a raised exception is converted to the
`errExec` dict.  Either way one text-content block is produced. -/
def handlerEnvelope (name : String) (r : Except String JVal) :
    Except String (List JVal) :=
  Except.ok [match r with
             | Except.ok v => v
             | Except.error e => errExec name e]

/-- Model of `handle_call_tool` (gmail_server.py lines 100-138).  `service` is
whether `self.service` is already set; `initBody` is the outcome of the
lazy Gmail initialization; `hRecent`/`hUnread`/`hDetails` and `hSearch`
abstract the awaited handler coroutines `self._get_recent_emails(count)`
etc., receiving the argument values exactly as extracted from the
arguments dict.  Note that the lazy initialization runs BEFORE the try
block, so an exception it raises propagates out of the dispatcher, while
any handler exception is caught and converted to an error payload. -/
def handle_call_tool
    (service : Bool) (initBody : Except String Unit)
    (hRecent : JVal → Except String JVal)
    (hUnread : JVal → Except String JVal)
    (hSearch : JVal → JVal → Except String JVal)
    (hDetails : JVal → Except String JVal)
    (name : String) (arguments : Option (List (String × JVal))) :
    Except String (List JVal) := do
  -- `if not arguments: arguments = {}`
  let args := match arguments with
    | none => []
    | some a => a
  -- `if not self.service: await self._initialize_gmail()` — before the try
  if !service then
    let _ ← _initialize_gmail initBody
  -- try: dispatch on the tool name; except: wrap into an error dict
  let result : JVal :=
    if name = "get_recent_emails" then
      match hRecent (dictGet args "count" (JVal.int 5)) with
      | Except.ok r => r
      | Except.error e => errExec name e
    else if name = "get_unread_emails" then
      match hUnread (dictGet args "count" (JVal.int 10)) with
      | Except.ok r => r
      | Except.error e => errExec name e
    else if name = "search_emails" then
      match hSearch (dictGet args "query" (JVal.str ""))
          (dictGet args "count" (JVal.int 10)) with
      | Except.ok r => r
      | Except.error e => errExec name e
    else if name = "get_email_details" then
      match hDetails (dictGet args "message_id" (JVal.str "")) with
      | Except.ok r => r
      | Except.error e => errExec name e
    else unknownTool name
  pure [result]

end GmailMCPServer

namespace GmailMCPClient

/-! Section: protocol client (`gmail_client.py`) -/

/-- The connection-relevant state of a `GmailMCPClient` instance:
`connected` is `self.connected` and `sessionSet` is whether
`self.session` is not `None`. -/
structure ClientState where
  connected : Bool
  sessionSet : Bool

/-- Constructor `__init__`: `self.session = None`, `self.connected = False`. -/
def initClient : ClientState := { connected := false, sessionSet := false }

/-- Outcome of the transport work inside the try block of `connect` (spawning
the stdio server, creating the session, `initialize`, `list_tools`).  On
`failure`, `sessionAssigned` records whether `self.session` had already
been assigned when the exception was raised. -/
inductive ConnectOutcome where
  | success
  | failure (sessionAssigned : Bool) (msg : String)

/-- Model of `GmailMCPClient.connect` (gmail_client.py lines 23-59): on success the
session is stored, `self.connected` is set and `True` is returned; any
exception is caught, a message is printed and `False` is returned — the
returned value is always an ordinary `bool`, never a raised error. -/
def connect (st : ClientState) (o : ConnectOutcome) :
    ClientState × Except String Bool :=
  match o with
  | ConnectOutcome.success =>
      ({ connected := true, sessionSet := true }, Except.ok true)
  | ConnectOutcome.failure sa _ =>
      ({ st with sessionSet := st.sessionSet || sa }, Except.ok false)

/-- Model of `GmailMCPClient.disconnect` (gmail_client.py lines 61-65): closes the
exit stack and clears `self.connected` (the session reference itself is
not cleared). -/
def disconnect (st : ClientState) : ClientState :=
  { st with connected := false }

/-- Outcome of `await self.session.call_tool(...)`: either a raised
transport-level exception or a returned result whose `content` holds the
text blocks. -/
inductive CallOutcome where
  | raises (msg : String)
  | returns (content : List String)

/-- The message of the guard exception raised by every tool method when
the client is not connected. -/
def notConnectedMsg : String := "Cliente MCP não está conectado"

/-- The dict returned when the MCP result has no content blocks. -/
def emptyResponse : JVal :=
  JVal.obj [("error", JVal.str "Resposta vazia do servidor MCP")]

/-- The dict returned by the except clause of a tool method. -/
def callError (method e : String) : JVal :=
  JVal.obj [("error", JVal.str ("Erro ao chamar " ++ method ++ ": " ++ e))]

/-- Model of `GmailMCPClient.get_recent_emails` (gmail_client.py lines 67-86): the
guard raises when not connected; inside the try block a transport
exception or a `json.loads` failure is converted into a returned error
dict.  `jsonLoads` abstracts `json.loads`. -/
def get_recent_emails (jsonLoads : String → Except String JVal)
    (st : ClientState)
    (call_tool : String → List (String × JVal) → CallOutcome)
    (count : Int) : Except String JVal :=
  if !st.connected || !st.sessionSet then
    Except.error notConnectedMsg
  else
    match call_tool "get_recent_emails" [("count", JVal.int count)] with
    | CallOutcome.raises e => Except.ok (callError "get_recent_emails" e)
    | CallOutcome.returns content =>
      match content with
      | [] => Except.ok emptyResponse
      | t :: _ =>
        match jsonLoads t with
        | Except.ok v => Except.ok v
        | Except.error e => Except.ok (callError "get_recent_emails" e)

/-- Model of `GmailMCPClient.get_unread_emails` (gmail_client.py lines 88-106),
modelled exactly as `get_recent_emails`. -/
def get_unread_emails (jsonLoads : String → Except String JVal)
    (st : ClientState)
    (call_tool : String → List (String × JVal) → CallOutcome)
    (count : Int) : Except String JVal :=
  if !st.connected || !st.sessionSet then
    Except.error notConnectedMsg
  else
    match call_tool "get_unread_emails" [("count", JVal.int count)] with
    | CallOutcome.raises e => Except.ok (callError "get_unread_emails" e)
    | CallOutcome.returns content =>
      match content with
      | [] => Except.ok emptyResponse
      | t :: _ =>
        match jsonLoads t with
        | Except.ok v => Except.ok v
        | Except.error e => Except.ok (callError "get_unread_emails" e)

/-- Model of `GmailMCPClient.search_emails` (gmail_client.py lines 108-126). -/
def search_emails (jsonLoads : String → Except String JVal)
    (st : ClientState)
    (call_tool : String → List (String × JVal) → CallOutcome)
    (query : String) (count : Int) : Except String JVal :=
  if !st.connected || !st.sessionSet then
    Except.error notConnectedMsg
  else
    match call_tool "search_emails"
        [("query", JVal.str query), ("count", JVal.int count)] with
    | CallOutcome.raises e => Except.ok (callError "search_emails" e)
    | CallOutcome.returns content =>
      match content with
      | [] => Except.ok emptyResponse
      | t :: _ =>
        match jsonLoads t with
        | Except.ok v => Except.ok v
        | Except.error e => Except.ok (callError "search_emails" e)

/-- Model of `GmailMCPClient.get_email_details` (gmail_client.py lines 128-146). -/
def get_email_details (jsonLoads : String → Except String JVal)
    (st : ClientState)
    (call_tool : String → List (String × JVal) → CallOutcome)
    (message_id : String) : Except String JVal :=
  if !st.connected || !st.sessionSet then
    Except.error notConnectedMsg
  else
    match call_tool "get_email_details" [("message_id", JVal.str message_id)] with
    | CallOutcome.raises e => Except.ok (callError "get_email_details" e)
    | CallOutcome.returns content =>
      match content with
      | [] => Except.ok emptyResponse
      | t :: _ =>
        match jsonLoads t with
        | Except.ok v => Except.ok v
        | Except.error e => Except.ok (callError "get_email_details" e)

/-- A client state with an established session, as produced by a
successful `connect`. -/
def readyState : ClientState := { connected := true, sessionSet := true }

end GmailMCPClient

/-! Section: concrete backend instances used to evaluate the theorems -/

namespace GmailMCPServer

/-- A single-part plain-text message body whose data decodes to "Hello". -/
def wPayload : Payload := .mk "text/plain" (some "SGVsbG8=") none

/-- A concrete remote message. -/
def wMsg : RawMessage :=
  { threadId := "t1",
    headers := [{ name := "From", value := "alice@example.com" }],
    payload := wPayload,
    snippet := some "Hello",
    labelIds := some ["INBOX"] }

/-- A backend on which every detail fetch succeeds with `wMsg`. -/
def wApiGet : String → Except String RawMessage := fun _ => Except.ok wMsg

/-- A backend listing exactly two message ids. -/
def wApiList : Int → Except String (List String) := fun _ => Except.ok ["m1", "m2"]

/-- A query-listing backend returning no matches. -/
def wApiListQ0 : String → Int → Except String (List String) := fun _ _ => Except.ok []

/-- A query-listing backend returning one match. -/
def wApiListQ1 : String → Int → Except String (List String) :=
  fun _ _ => Except.ok ["m1"]

end GmailMCPServer

open GmailMCPServer GmailMCPClient

/-! Section: helper lemmas -/

mutual

theorem extract_body_eq_amended :
    ∀ p : Payload, extract_body p = extract_body_amended p
  | .mk mt dat parts => by
    cases parts with
    | none => rfl
    | some ps =>
      simp only [extract_body, extract_body_amended]
      rw [extractParts_eq_amended ps]

theorem extractParts_eq_amended :
    ∀ ps : List Payload, extractParts ps = extractParts_amended ps
  | [] => rfl
  | p :: rest => by
    simp only [extractParts, extractParts_amended]
    by_cases hmt : p.mimeType = "text/plain"
    · cases hd : p.data with
      | some d => simp [hmt, hd, extractParts_eq_amended rest]
      | none => simp [hmt, hd, extractParts_eq_amended rest]
    · cases hp : (p.parts).isSome with
      | true =>
        simp [hmt, hp, extract_body_eq_amended p, extractParts_eq_amended rest]
      | false =>
        simp [hmt, hp, extractParts_eq_amended rest]

end

/-- The bulk-fetch loop collects, in listing order, exactly the emails of
the messages whose detail fetch succeeded. -/
theorem emailLoop_eq (api_get : String → Except String RawMessage) :
    ∀ (ms : List String) (acc : List JVal),
      emailLoop api_get acc ms = acc ++ ms.filterMap (fetchedEmail api_get)
  | [], acc => by simp [emailLoop]
  | m :: ms, acc => by
    have ih := emailLoop_eq api_get ms
    cases hg : api_get m with
    | error e =>
      have h1 : _get_email_details api_get m =
          [("error", JVal.str ("Erro ao buscar email " ++ m ++ ": " ++ e))] := by
        simp [_get_email_details, hg]
      have h2 : fetchedEmail api_get m = none := by simp [fetchedEmail, hg]
      simp [emailLoop, h1, h2, dictHasKey, List.lookup, ih]
    | ok msg =>
      cases hb : extract_body msg.payload with
      | error e =>
        have h1 : _get_email_details api_get m =
            [("error", JVal.str ("Erro ao buscar email " ++ m ++ ": " ++ e))] := by
          simp [_get_email_details, hg, hb]
        have h2 : fetchedEmail api_get m = none := by simp [fetchedEmail, hg, hb]
        simp [emailLoop, h1, h2, dictHasKey, List.lookup, ih]
      | ok body =>
        have h1 : _get_email_details api_get m = emailFields m msg body := by
          simp [_get_email_details, hg, hb]
        have h2 : fetchedEmail api_get m
            = some (JVal.obj (emailFields m msg body)) := by
          simp [fetchedEmail, hg, hb]
        have h3 : dictHasKey (emailFields m msg body) "error" = false := by
          simp +decide [dictHasKey, emailFields, List.lookup]
        have h4 : (emailFields m msg body).isEmpty = false := by
          simp [emailFields]
        simp [emailLoop, h1, h2, h3, h4, ih]

/-! Section: claim theorems -/

/-- C1 counterexample: the claim that the dispatcher converts every
exception — including one raised by the lazy first-call Gmail
initialization — into an error payload is false: with no service handle
and a failing initialization, dispatching a tool call raises, because the
initialization runs before the try block of the dispatcher. -/
theorem C1_counterexample :
    handle_call_tool false (Except.error "X")
      (fun _ => Except.ok JVal.null) (fun _ => Except.ok JVal.null)
      (fun _ _ => Except.ok JVal.null) (fun _ => Except.ok JVal.null)
      "get_recent_emails" none
      = Except.error "Erro ao inicializar Gmail: X" := rfl

/-- C1 amended: once the Gmail service handle exists, the dispatcher
never raises — every dispatch returns a single text-content payload, and
an exception raised by a tool handler while fulfilling the call is
converted into an error payload carrying the tool name and the failure
description.  An exception raised during the lazy first-call
initialization, by contrast, propagates uncaught. -/
theorem C1_amended :
    ∀ (initBody : Except String Unit)
      (hRecent hUnread : JVal → Except String JVal)
      (hSearch : JVal → JVal → Except String JVal)
      (hDetails : JVal → Except String JVal)
      (name : String) (arguments : Option (List (String × JVal)))
      (e : String),
      (∃ p, handle_call_tool true initBody hRecent hUnread hSearch hDetails
          name arguments = Except.ok [p]) ∧
      (handle_call_tool true initBody (fun _ => Except.error e) hUnread hSearch
          hDetails "get_recent_emails" arguments
        = Except.ok [errExec "get_recent_emails" e]) ∧
      (handle_call_tool true initBody hRecent (fun _ => Except.error e) hSearch
          hDetails "get_unread_emails" arguments
        = Except.ok [errExec "get_unread_emails" e]) ∧
      (handle_call_tool true initBody hRecent hUnread (fun _ _ => Except.error e)
          hDetails "search_emails" arguments
        = Except.ok [errExec "search_emails" e]) ∧
      (handle_call_tool true initBody hRecent hUnread hSearch
          (fun _ => Except.error e) "get_email_details" arguments
        = Except.ok [errExec "get_email_details" e]) := by
  intro initBody hRecent hUnread hSearch hDetails name arguments e
  exact ⟨⟨_, rfl⟩, rfl, rfl, rfl, rfl⟩

/-- C2 counterexample: the source does not follow the scan the spec describes exactly.
On a multipart payload whose first child has MIME type `text/plain`, no
inline data, but nested sub-parts (decoding to "hi"), and whose second
child is a `text/plain` part decoding to "ok", the source skips the first
child (its `elif` never runs for `text/plain` children) and returns "ok",
while the algorithm as worded by the claim recurses into the first child
and returns "hi". -/
theorem C2_counterexample :
    extract_body (.mk "multipart/mixed" none (some
      [.mk "text/plain" none (some [.mk "text/plain" (some "aGk=") none]),
       .mk "text/plain" (some "b2s=") none])) = Except.ok "ok" ∧
    extract_body_spec (.mk "multipart/mixed" none (some
      [.mk "text/plain" none (some [.mk "text/plain" (some "aGk=") none]),
       .mk "text/plain" (some "b2s=") none])) = Except.ok "hi" ∧
    ("ok" : String) ≠ "hi" :=
  ⟨rfl, rfl, by decide⟩

/-- C2 amended: the extraction follows the claimed algorithm with one
correction — a `text/plain` child that carries no inline data is skipped
outright; the recursion into sub-parts applies only to children whose
MIME type is not `text/plain`.  With that correction the source
extraction coincides with the described algorithm on every payload. -/
theorem C2_algorithm :
    ∀ p : Payload, extract_body p = extract_body_amended p :=
  extract_body_eq_amended

/-- C3 counterexample: on the second concrete input of the spec (first child
`multipart/alternative` containing only `text/html`, second child
`text/plain` with data "Cmk="), extraction yields "i", not the claimed
"oi": "Cmk=" decodes to a newline followed by "i", and stripping removes
the newline. -/
theorem C3_counterexample :
    extract_body (.mk "multipart/mixed" none (some
      [.mk "multipart/alternative" none
        (some [.mk "text/html" (some "SGVsbG8=") none]),
       .mk "text/plain" (some "Cmk=") none])) = Except.ok "i" ∧
    ("i" : String) ≠ "oi" :=
  ⟨rfl, by decide⟩

/-- C3 amended: for a single-part `text/plain` payload with base64 data
"SGVsbG8=" extraction yields "Hello"; for the multipart payload whose
first child is `multipart/alternative` containing only `text/html` and
whose second child is `text/plain` with data "Cmk=", extraction yields
"i" (the first plain-text leaf, decoded and trimmed). -/
theorem C3_concrete_extractions :
    extract_body (.mk "text/plain" (some "SGVsbG8=") none) = Except.ok "Hello" ∧
    extract_body (.mk "multipart/mixed" none (some
      [.mk "multipart/alternative" none
        (some [.mk "text/html" (some "SGVsbG8=") none]),
       .mk "text/plain" (some "Cmk=") none])) = Except.ok "i" :=
  ⟨rfl, rfl⟩

/-- C4: for every nonnegative count and every backend listing,
`_get_recent_emails` returns the success payload with tool name
`get_recent_emails`, `success = true`, the emails being — in listing
order — exactly the details of the listed messages (truncated to `count`)
whose detail fetch succeeded, a `count` field equal to the number of
returned emails, and at most `count` emails. -/
theorem C4_get_recent_emails :
    ∀ (api_list : Int → Except String (List String))
      (api_get : String → Except String RawMessage)
      (count : Int) (messages : List String),
      0 ≤ count →
      api_list count = Except.ok messages →
      _get_recent_emails api_list api_get count =
        [("tool", JVal.str "get_recent_emails"),
         ("success", JVal.bool true),
         ("count", JVal.int
           (((messages.take count.toNat).filterMap (fetchedEmail api_get)).length)),
         ("emails", JVal.arr
           ((messages.take count.toNat).filterMap (fetchedEmail api_get)))] ∧
      ((messages.take count.toNat).filterMap (fetchedEmail api_get)).length
        ≤ count.toNat := by
  intro api_list api_get count messages hc hl
  constructor
  · simp [_get_recent_emails, hl, pyTake, hc, emailLoop_eq]
  · exact le_trans (List.length_filterMap_le _ _) (List.length_take_le _ _)

/-- C4 witness: the theorem applied to a backend listing two messages
whose detail fetches both succeed. -/
theorem C4_witness :
    (0 ≤ (2 : Int) ∧ wApiList 2 = Except.ok ["m1", "m2"]) ∧
    (_get_recent_emails wApiList wApiGet 2 =
        [("tool", JVal.str "get_recent_emails"),
         ("success", JVal.bool true),
         ("count", JVal.int
           (((["m1", "m2"].take (2 : Int).toNat).filterMap
              (fetchedEmail wApiGet)).length)),
         ("emails", JVal.arr
           ((["m1", "m2"].take (2 : Int).toNat).filterMap
              (fetchedEmail wApiGet)))] ∧
      ((["m1", "m2"].take (2 : Int).toNat).filterMap
          (fetchedEmail wApiGet)).length ≤ (2 : Int).toNat) :=
  ⟨⟨by decide, rfl⟩,
   C4_get_recent_emails wApiList wApiGet 2 ["m1", "m2"] (by decide) rfl⟩

/-- C5 counterexample: the successful search payload is not of the §6
shape `(tool, success, count, emails)` — it carries an extra `query`
field: its keys are `(tool, query, success, count, emails)`. -/
theorem C5_counterexample :
    _search_emails wApiListQ0 wApiGet "" 10 =
      [("tool", JVal.str "search_emails"),
       ("query", JVal.str ""),
       ("success", JVal.bool true),
       ("count", JVal.int 0),
       ("emails", JVal.arr [])] ∧
    dictKeys (_search_emails wApiListQ0 wApiGet "" 10)
      ≠ ["tool", "success", "count", "emails"] :=
  ⟨rfl, by decide⟩

/-- C5 amended: for every query string, including the empty string,
`_search_emails` passes the caller-supplied query verbatim to the remote
API (an empty query is not rejected), and on success returns the payload
`(tool, query, success = true, count, emails)` — the §6 shape plus a
`query` field echoing the search query — with the emails being exactly
the successfully fetched details of the listed messages and the `count`
field their number. -/
theorem C5_search_emails :
    ∀ (api_list_q : String → Int → Except String (List String))
      (api_get : String → Except String RawMessage)
      (query : String) (count : Int) (messages : List String),
      api_list_q query count = Except.ok messages →
      _search_emails api_list_q api_get query count =
        [("tool", JVal.str "search_emails"),
         ("query", JVal.str query),
         ("success", JVal.bool true),
         ("count", JVal.int ((messages.filterMap (fetchedEmail api_get)).length)),
         ("emails", JVal.arr (messages.filterMap (fetchedEmail api_get)))] := by
  intro al ag q c ms h
  simp [_search_emails, h, emailLoop_eq]

/-- C5 witness: the theorem applied at the empty query, which is passed
through rather than rejected. -/
theorem C5_witness :
    wApiListQ1 "" 10 = Except.ok ["m1"] ∧
    _search_emails wApiListQ1 wApiGet "" 10 =
      [("tool", JVal.str "search_emails"),
       ("query", JVal.str ""),
       ("success", JVal.bool true),
       ("count", JVal.int ((["m1"].filterMap (fetchedEmail wApiGet)).length)),
       ("emails", JVal.arr (["m1"].filterMap (fetchedEmail wApiGet)))] :=
  ⟨rfl, C5_search_emails wApiListQ1 wApiGet "" 10 ["m1"] rfl⟩

/-- C6 counterexample: dispatching an unregistered tool name returns a
well-formed envelope, but its error message is the Portuguese
"Ferramenta desconhecida: {name}", not the literal "unknown tool: {name}"
stated by the claim. -/
theorem C6_counterexample :
    (handle_call_tool true (Except.ok ())
        (fun _ => Except.ok JVal.null) (fun _ => Except.ok JVal.null)
        (fun _ _ => Except.ok JVal.null) (fun _ => Except.ok JVal.null)
        "delete_emails" none
      = Except.ok [JVal.obj
          [("error", JVal.str "Ferramenta desconhecida: delete_emails")]]) ∧
    "Ferramenta desconhecida: delete_emails" ≠ "unknown tool: delete_emails" :=
  ⟨rfl, by decide⟩

/-- C6 amended: with the service handle initialized, dispatching a call
whose tool name is not one of the four registered tools returns a
well-formed result envelope containing the error payload "Ferramenta
desconhecida: {name}" (Portuguese for "unknown tool: {name}"), never a
transport-level failure or thrown exception.  (If the service is
uninitialized and the lazy initialization fails, that exception
propagates — see C1.) -/
theorem C6_unknown_tool :
    ∀ (initBody : Except String Unit)
      (hRecent hUnread : JVal → Except String JVal)
      (hSearch : JVal → JVal → Except String JVal)
      (hDetails : JVal → Except String JVal)
      (arguments : Option (List (String × JVal))) (name : String),
      name ≠ "get_recent_emails" → name ≠ "get_unread_emails" →
      name ≠ "search_emails" → name ≠ "get_email_details" →
      handle_call_tool true initBody hRecent hUnread hSearch hDetails
          name arguments = Except.ok [unknownTool name] := by
  intro ib hR hU hS hD args name h1 h2 h3 h4
  simp [handle_call_tool, h1, h2, h3, h4]
  rfl

/-- C6 witness: the theorem applied to the unregistered tool name
"nope". -/
theorem C6_witness :
    ("nope" ≠ "get_recent_emails" ∧ "nope" ≠ "get_unread_emails" ∧
     "nope" ≠ "search_emails" ∧ "nope" ≠ "get_email_details") ∧
    handle_call_tool true (Except.ok ())
        (fun _ => Except.ok JVal.null) (fun _ => Except.ok JVal.null)
        (fun _ _ => Except.ok JVal.null) (fun _ => Except.ok JVal.null)
        "nope" none = Except.ok [unknownTool "nope"] :=
  ⟨⟨by decide, by decide, by decide, by decide⟩,
   C6_unknown_tool _ _ _ _ _ _ "nope"
     (by decide) (by decide) (by decide) (by decide)⟩

/-- C7 counterexample: a transport-level failure raised by
`session.call_tool` during an issued call is not raised to the caller —
the per-tool method catches it and returns an ordinary `{error}` dict
(the call returns `Except.ok`, i.e. it does not fail). -/
theorem C7_counterexample :
    (get_recent_emails (fun _ => Except.error "json") readyState
        (fun _ _ => CallOutcome.raises "Connection closed") 5
      = Except.ok (callError "get_recent_emails" "Connection closed")) ∧
    (get_recent_emails (fun _ => Except.error "json") readyState
        (fun _ _ => CallOutcome.raises "Connection closed") 5).isOk = true :=
  ⟨rfl, rfl⟩

/-- C7 amended: a transport-level failure occurring during an issued call
is caught by each of the four Protocol Client tool methods and converted
into a returned `{error}` payload naming the failing method — it is
swallowed into an ordinary return value, not raised; only the
NotConnected precondition failure is raised (see C8). -/
theorem C7_transport_failures :
    ∀ (jsonLoads : String → Except String JVal) (e : String)
      (count : Int) (query message_id : String),
      get_recent_emails jsonLoads readyState
          (fun _ _ => CallOutcome.raises e) count
        = Except.ok (callError "get_recent_emails" e) ∧
      get_unread_emails jsonLoads readyState
          (fun _ _ => CallOutcome.raises e) count
        = Except.ok (callError "get_unread_emails" e) ∧
      search_emails jsonLoads readyState
          (fun _ _ => CallOutcome.raises e) query count
        = Except.ok (callError "search_emails" e) ∧
      get_email_details jsonLoads readyState
          (fun _ _ => CallOutcome.raises e) message_id
        = Except.ok (callError "get_email_details" e) := by
  intro jl e count q mid
  exact ⟨rfl, rfl, rfl, rfl⟩

/-- C8: every one of the four client tool methods, invoked on a state in
which the client is not connected (as before `connect()` has succeeded,
and as after `disconnect()`, which clears the connected flag), raises the
NotConnected exception "Cliente MCP não está conectado" rather than
returning a payload, for all argument values. -/
theorem C8_not_connected :
    (∀ (jsonLoads : String → Except String JVal)
       (call_tool : String → List (String × JVal) → CallOutcome)
       (count : Int) (query message_id : String) (st : ClientState),
       st.connected = false ∨ st.sessionSet = false →
       get_recent_emails jsonLoads st call_tool count
           = Except.error notConnectedMsg ∧
       get_unread_emails jsonLoads st call_tool count
           = Except.error notConnectedMsg ∧
       search_emails jsonLoads st call_tool query count
           = Except.error notConnectedMsg ∧
       get_email_details jsonLoads st call_tool message_id
           = Except.error notConnectedMsg) ∧
    initClient.connected = false ∧ initClient.sessionSet = false ∧
    (∀ st : ClientState, (disconnect st).connected = false) := by
  constructor
  · intro jl ct count q mid st h
    have hg : (!st.connected || !st.sessionSet) = true := by
      rcases h with h | h <;> simp [h]
    refine ⟨?_, ?_, ?_, ?_⟩ <;>
      simp [get_recent_emails, get_unread_emails, search_emails,
        get_email_details, hg]
  · exact ⟨rfl, rfl, fun st => rfl⟩

/-- C8 witness: the freshly constructed client and a disconnected client
both satisfy the not-connected hypothesis, and every tool method raises
on them. -/
theorem C8_witness :
    (initClient.connected = false ∨ initClient.sessionSet = false) ∧
    ((disconnect readyState).connected = false ∨
      (disconnect readyState).sessionSet = false) ∧
    (get_recent_emails (fun _ => Except.error "x") initClient
        (fun _ _ => CallOutcome.returns []) 1 = Except.error notConnectedMsg ∧
     get_unread_emails (fun _ => Except.error "x") initClient
        (fun _ _ => CallOutcome.returns []) 1 = Except.error notConnectedMsg ∧
     search_emails (fun _ => Except.error "x") initClient
        (fun _ _ => CallOutcome.returns []) "" 1 = Except.error notConnectedMsg ∧
     get_email_details (fun _ => Except.error "x") initClient
        (fun _ _ => CallOutcome.returns []) "" = Except.error notConnectedMsg) ∧
    (get_recent_emails (fun _ => Except.error "x") (disconnect readyState)
        (fun _ _ => CallOutcome.returns []) 1 = Except.error notConnectedMsg ∧
     get_unread_emails (fun _ => Except.error "x") (disconnect readyState)
        (fun _ _ => CallOutcome.returns []) 1 = Except.error notConnectedMsg ∧
     search_emails (fun _ => Except.error "x") (disconnect readyState)
        (fun _ _ => CallOutcome.returns []) "" 1 = Except.error notConnectedMsg ∧
     get_email_details (fun _ => Except.error "x") (disconnect readyState)
        (fun _ _ => CallOutcome.returns []) "" = Except.error notConnectedMsg) :=
  ⟨Or.inl rfl, Or.inl rfl,
   C8_not_connected.1 (fun _ => Except.error "x")
     (fun _ _ => CallOutcome.returns []) 1 "" "" initClient (Or.inl rfl),
   C8_not_connected.1 (fun _ => Except.error "x")
     (fun _ _ => CallOutcome.returns []) 1 "" "" (disconnect readyState)
     (Or.inl rfl)⟩

/-- C9 counterexample: when the transport setup fails, `connect` does not
fail with a ConnectionError — the exception is caught and `connect`
returns the ordinary value `False` (the resulting call outcome is an
`Except.ok`, and the state is unchanged from the disconnected start). -/
theorem C9_counterexample :
    connect initClient (ConnectOutcome.failure false "endpoint unreachable")
      = (initClient, Except.ok false) ∧
    (connect initClient
        (ConnectOutcome.failure false "endpoint unreachable")).2.isOk = true :=
  ⟨rfl, rfl⟩

/-- C9 amended: `connect()` on success moves the session state to Ready
(connected with a stored session, tool descriptors having been listed)
and returns `True`; when the endpoint is unreachable or the handshake is
rejected, the exception is caught and `connect` returns `False` — a
returned value, not a raised ConnectionError — and from a disconnected
start the state stays disconnected. -/
theorem C9_connect :
    ∀ (st : ClientState) (sessionAssigned : Bool) (msg : String),
      connect st ConnectOutcome.success
        = ({ connected := true, sessionSet := true }, Except.ok true) ∧
      (connect st (ConnectOutcome.failure sessionAssigned msg)).2
        = Except.ok false ∧
      (st.connected = false →
        ((connect st (ConnectOutcome.failure sessionAssigned msg)).1).connected
          = false) := by
  intro st sa msg
  exact ⟨rfl, rfl, fun h => h⟩

/-- C9 witness: the theorem applied to a fresh client whose connect
attempt fails after the session reference was already assigned. -/
theorem C9_witness :
    initClient.connected = false ∧
    ((connect initClient
        (ConnectOutcome.failure true "handshake rejected")).1).connected
      = false :=
  ⟨rfl, (C9_connect initClient true "handshake rejected").2.2 rfl⟩

/-- C10: the dispatcher performs no schema validation: a missing (or
null) arguments mapping is treated as empty; an absent `count` defaults
to 5 for get_recent_emails and 10 for get_unread_emails and
search_emails; an absent `query` or `message_id` — though listed in the
`required` field of the advertised schema — silently defaults to the
empty string and the call proceeds; even a non-integer `count` is passed
through to the handler unchecked. -/
theorem C10_no_validation :
    ∀ (initBody : Except String Unit)
      (hRecent hUnread : JVal → Except String JVal)
      (hSearch : JVal → JVal → Except String JVal)
      (hDetails : JVal → Except String JVal),
      (∀ name, handle_call_tool true initBody hRecent hUnread hSearch hDetails
          name none
        = handle_call_tool true initBody hRecent hUnread hSearch hDetails
          name (some [])) ∧
      handle_call_tool true initBody hRecent hUnread hSearch hDetails
          "get_recent_emails" (some [])
        = handlerEnvelope "get_recent_emails" (hRecent (JVal.int 5)) ∧
      handle_call_tool true initBody hRecent hUnread hSearch hDetails
          "get_unread_emails" (some [])
        = handlerEnvelope "get_unread_emails" (hUnread (JVal.int 10)) ∧
      handle_call_tool true initBody hRecent hUnread hSearch hDetails
          "search_emails" (some [])
        = handlerEnvelope "search_emails" (hSearch (JVal.str "") (JVal.int 10)) ∧
      handle_call_tool true initBody hRecent hUnread hSearch hDetails
          "get_email_details" (some [])
        = handlerEnvelope "get_email_details" (hDetails (JVal.str "")) ∧
      handle_call_tool true initBody hRecent hUnread hSearch hDetails
          "get_recent_emails" (some [("count", JVal.str "bogus")])
        = handlerEnvelope "get_recent_emails" (hRecent (JVal.str "bogus")) ∧
      (handle_list_tools.map (fun t => jObjGet t.inputSchema "required"))
        = [none, none, some (JVal.arr [JVal.str "query"]),
           some (JVal.arr [JVal.str "message_id"])] := by
  intro ib hR hU hS hD
  exact ⟨fun name => rfl, rfl, rfl, rfl, rfl, rfl, rfl⟩
